import Mathlib

/-!
Shallow embedding of the arXiv monitor bot core.

Sources embedded here:
* src/database.py — the SQLite-backed ledger (users, subscriptions, seen_papers)
  and its eight operations.
* src/main.py — the scheduler `check_subscriptions`, the search/pagination flow
  (`get_arxiv_articles`, `display_search_results`, `handle_navigation`,
  `handle_text`) and the article-click handler `handle_article_click`.

Modelling conventions:
* SQLite tables become lists of row structures inside a `DB` record;
  `AUTOINCREMENT` primary keys become explicit `next_…` counters.
* The sqlite3 connections never execute `PRAGMA foreign_keys = ON`, so under
  SQLite's default the foreign-key clauses in the schema (including the
  `ON DELETE CASCADE` on seen_papers.subscription_id) are not enforced at
  runtime; the embedding therefore models `DELETE FROM subscriptions` as
  touching only the subscriptions table, and `INSERT` into subscriptions as
  never failing on a missing user.
* `datetime.now()` values are a `DateTime` record carrying the fields the code
  reads: calendar date, hour of day and Python-style weekday (Monday = 0).
  The code calls `datetime.now()` once per pass and again inside
  `update_last_checked`; the model passes the single pass timestamp to both,
  which is the granularity at which every claim reads the value.
* External collaborators (arXiv search, Gemini/Telegraph enrichment) are
  oracles passed as function arguments; a fetch exception caught by the code
  (yielding a truncated or empty article list) corresponds to an oracle that
  returns that truncated list.
* Externally observable side effects of one scheduler pass (arXiv fetches,
  Telegraph page creations, `mark_paper_seen` writes, `bot.send_message`
  calls, `update_last_checked` writes) are recorded as an `Event` trace in
  program order, so temporal claims about the pass can be stated as ordering
  facts on the trace.
-/

/-- A wall-clock timestamp as the code observes it: the calendar date
(`datetime.date()`), the hour of day (`datetime.hour`) and the Python-style
weekday (`datetime.weekday()`, Monday = 0). -/
structure DateTime where
  year : Nat
  month : Nat
  day : Nat
  hour : Nat
  weekday : Nat
deriving DecidableEq

/-- Python `a.date() == b.date()`: calendar-date equality. -/
def sameDate (a b : DateTime) : Bool :=
  a.year == b.year && a.month == b.month && a.day == b.day

/-- One arXiv search result as built in `get_arxiv_articles` (src/main.py):
title, entry link, abstract, publication year and the short arxiv id obtained
by splitting the entry link. -/
structure Article where
  title : String
  link : String
  abstract : String
  year : Nat
  arxiv_id : String
deriving DecidableEq

/-- One row of the `subscriptions` table (src/database.py `init_db`). -/
structure SubRow where
  id : Nat
  user_id : Int
  topic : String
  frequency : String
  last_checked : Option DateTime
deriving DecidableEq

/-- One row of the `seen_papers` table (src/database.py `init_db`).  The
schema's `UNIQUE(user_id, arxiv_id)` constraint is realised by
`mark_paper_seen`'s `INSERT OR IGNORE`, which refuses to add a second row for
the same (user_id, arxiv_id) pair. -/
structure SeenRow where
  id : Nat
  user_id : Int
  subscription_id : Nat
  arxiv_id : String
deriving DecidableEq

/-- The whole SQLite database: the three tables of `init_db` plus the
`AUTOINCREMENT` counters for the two surrogate primary keys. -/
structure DB where
  users : List Int
  subscriptions : List SubRow
  seen_papers : List SeenRow
  next_sub_id : Nat
  next_seen_id : Nat
deriving DecidableEq

/-- `init_db` (src/database.py): fresh empty tables; SQLite AUTOINCREMENT
starts row ids at 1. -/
def init_db : DB :=
  { users := [], subscriptions := [], seen_papers := [],
    next_sub_id := 1, next_seen_id := 1 }

/-- `add_user` (src/database.py): `INSERT OR IGNORE INTO users`. -/
def add_user (db : DB) (user_id : Int) : DB :=
  if db.users.contains user_id then db
  else { db with users := db.users ++ [user_id] }

/-- `add_subscription` (src/database.py): unconditional
`INSERT INTO subscriptions (user_id, topic, frequency)`; no validation of the
topic string; returns `cursor.lastrowid`.  (With `PRAGMA foreign_keys` off —
the sqlite3 default, never changed by this code — the FOREIGN KEY on user_id
is not checked, so the insert always succeeds.) -/
def add_subscription (db : DB) (user_id : Int) (topic frequency : String) :
    Nat × DB :=
  (db.next_sub_id,
   { db with
      subscriptions := db.subscriptions ++
        [{ id := db.next_sub_id, user_id := user_id, topic := topic,
           frequency := frequency, last_checked := none }],
      next_sub_id := db.next_sub_id + 1 })

/-- `get_subscriptions` (src/database.py): rows with the given user_id, in
table (insertion) order. -/
def get_subscriptions (db : DB) (user_id : Int) : List SubRow :=
  db.subscriptions.filter (fun s => s.user_id == user_id)

/-- `get_all_subscriptions` (src/database.py): every subscription row. -/
def get_all_subscriptions (db : DB) : List SubRow :=
  db.subscriptions

/-- `delete_subscription` (src/database.py): `DELETE FROM subscriptions
WHERE id = ?`; returns `cursor.rowcount > 0`.  `PRAGMA foreign_keys` is never
enabled, so the `ON DELETE CASCADE` clause on seen_papers is inert and the
delete touches only the subscriptions table. -/
def delete_subscription (db : DB) (subscription_id : Nat) : Bool × DB :=
  (db.subscriptions.any (fun s => s.id == subscription_id),
   { db with
      subscriptions := db.subscriptions.filter
        (fun s => !(s.id == subscription_id)) })

/-- `update_last_checked` (src/database.py): `UPDATE subscriptions SET
last_checked = ? WHERE id = ?` with the current timestamp. -/
def update_last_checked (db : DB) (subscription_id : Nat) (now : DateTime) :
    DB :=
  { db with
      subscriptions := db.subscriptions.map (fun s =>
        if s.id == subscription_id then { s with last_checked := some now }
        else s) }

/-- `mark_paper_seen` (src/database.py): `INSERT OR IGNORE INTO seen_papers`.
Because of `UNIQUE(user_id, arxiv_id)`, the insert is ignored exactly when a
row for this (user_id, arxiv_id) pair already exists; the function never
raises. -/
def mark_paper_seen (db : DB) (user_id : Int) (subscription_id : Nat)
    (arxiv_id : String) : DB :=
  if db.seen_papers.any
      (fun r => r.user_id == user_id && r.arxiv_id == arxiv_id) then db
  else
    { db with
        seen_papers := db.seen_papers ++
          [{ id := db.next_seen_id, user_id := user_id,
             subscription_id := subscription_id, arxiv_id := arxiv_id }],
        next_seen_id := db.next_seen_id + 1 }

/-- `is_paper_seen` (src/database.py): `SELECT 1 FROM seen_papers WHERE
user_id = ? AND arxiv_id = ?` is non-empty. -/
def is_paper_seen (db : DB) (user_id : Int) (arxiv_id : String) : Bool :=
  db.seen_papers.any (fun r => r.user_id == user_id && r.arxiv_id == arxiv_id)

/-- `get_unseen_papers` (src/database.py): early `return []` on an empty id
list; otherwise one `SELECT arxiv_id … WHERE user_id = ? AND arxiv_id IN (…)`
builds the `seen` set and the comprehension keeps the input ids not in it,
in input order. -/
def get_unseen_papers (db : DB) (user_id : Int) (arxiv_ids : List String) :
    List String :=
  if arxiv_ids.isEmpty then []
  else
    let seen := (db.seen_papers.filter (fun r =>
        r.user_id == user_id && arxiv_ids.contains r.arxiv_id)).map
      (fun r => r.arxiv_id)
    arxiv_ids.filter (fun aid => !(seen.contains aid))

/-- Number of SQL round-trips `get_unseen_papers` performs: the code returns
before even opening a connection when the id list is empty, and otherwise
executes exactly one SELECT. -/
def get_unseen_papers_queries (arxiv_ids : List String) : Nat :=
  if arxiv_ids.isEmpty then 0 else 1

/-- Number of seen_papers rows for one (user, item) pair (the row count a
`SELECT … WHERE user_id = ? AND arxiv_id = ?` would report). -/
def seen_count (db : DB) (user_id : Int) (arxiv_id : String) : Nat :=
  (db.seen_papers.filter
    (fun r => r.user_id == user_id && r.arxiv_id == arxiv_id)).length

/-- The `UNIQUE(user_id, arxiv_id)` table invariant of seen_papers. -/
def seen_unique (db : DB) : Prop :=
  (db.seen_papers.map (fun r => (r.user_id, r.arxiv_id))).Nodup

instance (db : DB) : Decidable (seen_unique db) := by
  unfold seen_unique; infer_instance

/-! ### Search side: global article storage, per-user pagination sessions -/

/-- The per-user pagination record stored in `user_search_state`
(src/main.py): the active query and the current page offset. -/
structure SearchState where
  query : String
  offset : Nat
deriving DecidableEq

/-- The global `articles_storage` dict (src/main.py line 41): arxiv_id →
article data, shared by every user.  Modelled as an association list with
unique keys. -/
abbrev Storage := List (String × Article)

/-- The global `user_search_state` dict (src/main.py line 39): user_id →
pagination record. -/
abbrev Sessions := List (Int × SearchState)

/-- Python dict assignment `storage[key] = value`: overwrite-or-add. -/
def store_insert (storage : Storage) (key : String) (art : Article) :
    Storage :=
  (key, art) :: storage.filter (fun p => !(p.1 == key))

/-- The `for art in current_batch: articles_storage[art['arxiv_id']] = art`
loop at the end of `get_arxiv_articles`. -/
def store_articles (storage : Storage) (batch : List Article) : Storage :=
  batch.foldl (fun st art => store_insert st art.arxiv_id art) storage

/-- Dict assignment `user_search_state[user_id] = {query, offset}`. -/
def sessions_insert (sessions : Sessions) (user_id : Int)
    (state : SearchState) : Sessions :=
  (user_id, state) :: sessions.filter (fun p => !(p.1 == user_id))

/-- The two process-global mutable dicts of src/main.py. -/
structure BotState where
  user_search_state : Sessions
  articles_storage : Storage
deriving DecidableEq

/-- `get_arxiv_articles` (src/main.py): the external API is the oracle
`source`, giving the full newest-first result stream for a query.  The code
iterates the generator at `offset`, stopping after `max_results + 1` items
(the +1 probes for a further page); `has_next` is whether the probe item
arrived; the returned batch is truncated to `max_results`, and each article
of the batch is stored into the global `articles_storage`.  An API exception
(caught and logged) corresponds to an oracle returning the items produced
before the failure.  Returns ((current_batch, has_next), updated storage). -/
def get_arxiv_articles (source : String → List Article) (storage : Storage)
    (query : String) (max_results offset : Nat) :
    (List Article × Bool) × Storage :=
  let articles := ((source query).drop offset).take (max_results + 1)
  let has_next := decide (articles.length > max_results)
  let current_batch := articles.take max_results
  ((current_batch, has_next), store_articles storage current_batch)

/-- `display_search_results` (src/main.py): fetch one page of 5 via
`get_arxiv_articles`; on an empty result at offset 0 send a "nothing found"
message and return without saving the session; otherwise render the page and
save `user_search_state[user_id] = {query, offset}`.  Message rendering and
keyboards are UI and are not modelled; the state effects are. -/
def display_search_results (source : String → List Article) (st : BotState)
    (user_id : Int) (query : String) (offset : Nat) : BotState :=
  let fetched := get_arxiv_articles source st.articles_storage query 5 offset
  let articles := fetched.1.1
  let storage1 := fetched.2
  if articles.isEmpty && offset == 0 then
    { st with articles_storage := storage1 }
  else
    { user_search_state :=
        sessions_insert st.user_search_state user_id
          { query := query, offset := offset },
      articles_storage := storage1 }

/-- `handle_text` (src/main.py): a plain text message outside the FSM starts
a fresh search at offset 0. -/
def handle_text (source : String → List Article) (st : BotState)
    (user_id : Int) (text : String) : BotState :=
  display_search_results source st user_id text 0

/-- `handle_navigation` (src/main.py): if the user has no entry in
`user_search_state`, answer "session expired" and change nothing; otherwise
rerun `display_search_results` for the stored query at the requested
offset. -/
def handle_navigation (source : String → List Article) (st : BotState)
    (user_id : Int) (offset : Nat) : BotState :=
  match st.user_search_state.lookup user_id with
  | none => st
  | some sess => display_search_results source st user_id sess.query offset

/-- `create_telegraph_page` (src/main.py): the Gemini + Telegraph pipeline is
the oracle `enrich`; on any exception (oracle `none`) the code falls back to
the article's raw arXiv link. -/
def create_telegraph_page (enrich : Article → Option String)
    (article : Article) : String :=
  match enrich article with
  | some url => url
  | none => article.link

/-- Outcome of `handle_article_click` (src/main.py). -/
inductive ClickResult where
  | notFound
  | enriched (article : Article) (page_url : String)
deriving DecidableEq

/-- `handle_article_click` (src/main.py): strip the `article_` prefix from
the callback data, look the arxiv id up in the GLOBAL `articles_storage`
(the per-user `user_search_state` is not consulted); answer "Статья не
найдена" if absent, otherwise lazily create the Telegraph page and send the
links.  The handler never mutates either global dict. -/
def handle_article_click (enrich : Article → Option String) (st : BotState)
    (arxiv_id : String) : ClickResult :=
  match st.articles_storage.lookup arxiv_id with
  | none => ClickResult.notFound
  | some article =>
      ClickResult.enriched article (create_telegraph_page enrich article)

/-- The keys currently present in the global article storage. -/
def storageKeys (storage : Storage) : List String :=
  storage.map (fun p => p.1)

/-! ### Scheduler: `check_subscriptions` (src/main.py) -/

/-- `ARXIV_NO_UPDATE_DAYS = {4, 5}` (Friday, Saturday; src/main.py). -/
def ARXIV_NO_UPDATE_DAYS : List Nat := [4, 5]

/-- `ARXIV_UPDATE_HOUR = 6` (src/main.py). -/
def ARXIV_UPDATE_HOUR : Nat := 6

/-- Externally observable side effects of one scheduler pass, in program
order. `fetch` is the arXiv API call, `enrich` the Telegraph page creation for
one article, `markSeen` the `mark_paper_seen` DB write, `dispatch` the single
`bot.send_message` carrying the batch of new articles (listed by arxiv id),
`dispatchNothingNew` the "нет новых статей" message, and `updateLastChecked`
the `update_last_checked` DB write. -/
inductive Event where
  | fetch (topic : String)
  | enrich (arxiv_id : String)
  | markSeen (user_id : Int) (subscription_id : Nat) (arxiv_id : String)
  | dispatch (user_id : Int) (arxiv_ids : List String)
  | dispatchNothingNew (user_id : Int)
  | updateLastChecked (subscription_id : Nat)
deriving DecidableEq

/-- The per-subscription skip test of `check_subscriptions` (src/main.py
lines 387–393): with `force` unset, a subscription whose `last_checked`
date equals today's date is skipped (`continue`). -/
def sub_skipped (force : Bool) (now : DateTime) (lc : Option DateTime) :
    Bool :=
  !force &&
    (match lc with
     | some d => sameDate d now
     | none => false)

/-- A subscription is eligible for processing exactly when the skip test does
not fire: `force` is set, or `last_checked` is null, or `last_checked` is a
different calendar date from `now`. -/
def sub_eligible (force : Bool) (now : DateTime) (lc : Option DateTime) :
    Bool :=
  !(sub_skipped force now lc)

/-- The body of the per-subscription loop of `check_subscriptions`
(src/main.py lines 384–430), for one subscription row of the snapshot taken
by `get_all_subscriptions`:

* skip (no fetch, no messages, no DB writes) when already checked today and
  not forced;
* otherwise fetch up to 5 candidates for the topic, keep those not
  `is_paper_seen` for the subscription's user;
* if any are new: for each of the first 3, create its Telegraph page and then
  immediately `mark_paper_seen` it still inside the loop; after the loop send
  ONE `bot.send_message` listing those articles;
* if none are new: send the single "nothing new" message;
* finally `update_last_checked`.

Returns the updated database, the updated global `articles_storage` (filled
by `get_arxiv_articles`), and the event trace in program order.  The model
follows the exception-free execution; a `bot.send_message`/Telegraph failure
is caught by the outer `try` and only skips the rest of that subscription's
body. -/
def process_subscription (source : String → List Article) (now : DateTime)
    (force : Bool) (sub : SubRow) (db : DB) (storage : Storage) :
    DB × Storage × List Event :=
  if sub_skipped force now sub.last_checked then (db, storage, [])
  else
    let fetched := get_arxiv_articles source storage sub.topic 5 0
    let articles := fetched.1.1
    let storage1 := fetched.2
    let new_articles :=
      articles.filter (fun a => !(is_paper_seen db sub.user_id a.arxiv_id))
    if new_articles.isEmpty then
      (update_last_checked db sub.id now, storage1,
       [Event.fetch sub.topic, Event.dispatchNothingNew sub.user_id,
        Event.updateLastChecked sub.id])
    else
      let delivered := new_articles.take 3
      let db1 := delivered.foldl
        (fun d a => mark_paper_seen d sub.user_id sub.id a.arxiv_id) db
      let deliverEvents := delivered.flatMap (fun a =>
        [Event.enrich a.arxiv_id,
         Event.markSeen sub.user_id sub.id a.arxiv_id])
      (update_last_checked db1 sub.id now, storage1,
       Event.fetch sub.topic ::
         (deliverEvents ++
          [Event.dispatch sub.user_id (delivered.map (fun a => a.arxiv_id)),
           Event.updateLastChecked sub.id]))

/-- `check_subscriptions` (src/main.py): with `force` unset, return
immediately on Friday/Saturday or before 06:00; otherwise take the
`get_all_subscriptions` snapshot and run the per-subscription body over it,
threading the database and the global article storage and concatenating the
event traces. -/
def check_subscriptions (source : String → List Article) (now : DateTime)
    (force : Bool) (db : DB) (storage : Storage) :
    DB × Storage × List Event :=
  if !force && ARXIV_NO_UPDATE_DAYS.contains now.weekday then
    (db, storage, [])
  else if !force && decide (now.hour < ARXIV_UPDATE_HOUR) then
    (db, storage, [])
  else
    (get_all_subscriptions db).foldl
      (fun acc sub =>
        let step := process_subscription source now force sub acc.1 acc.2.1
        (step.1, step.2.1, acc.2.2 ++ step.2.2))
      (db, storage, [])

/-- Python `str.strip()`: drop leading and trailing whitespace.  (Defined on
the character list so it evaluates by kernel reduction; agrees with Python on
ASCII whitespace.) -/
def py_strip (s : String) : String :=
  String.mk
    (((s.data.dropWhile Char.isWhitespace).reverse.dropWhile
        Char.isWhitespace).reverse)

/-- `process_subscription_topic` (src/main.py): the FSM handler strips the
message text and creates the subscription immediately with frequency
"daily" — there is no emptiness or validity check on the topic. -/
def process_subscription_topic (db : DB) (user_id : Int) (text : String) :
    Nat × DB :=
  add_subscription db user_id (py_strip text) "daily"

/-- `cmd_start` (src/main.py): /start registers the user idempotently. -/
def cmd_start (db : DB) (user_id : Int) : DB :=
  add_user db user_id

/-- Number of `bot.send_message` calls recorded in a trace (both the
new-articles batch message and the "nothing new" message are notifications
sent to the user). -/
def isNotification : Event → Bool
  | Event.dispatch _ _ => true
  | Event.dispatchNothingNew _ => true
  | _ => false

/-- Count of notifications dispatched in a trace. -/
def notificationCount (tr : List Event) : Nat :=
  tr.countP isNotification

/-! ### Database mutations as an operation language (for "any subsequent
call" claims): every write the repository ever performs against the DB is one
of these. -/

/-- One database-mutating operation of the repository: the five mutators of
src/database.py plus a whole scheduler pass (whose DB effect is a sequence of
`mark_paper_seen` / `update_last_checked` calls). -/
inductive DBOp where
  | addUser (user_id : Int)
  | addSubscription (user_id : Int) (topic frequency : String)
  | deleteSubscription (subscription_id : Nat)
  | updateLastChecked (subscription_id : Nat) (now : DateTime)
  | markSeen (user_id : Int) (subscription_id : Nat) (arxiv_id : String)
  | runPass (source : String → List Article) (now : DateTime) (force : Bool)

/-- Effect of one operation on the database. -/
def applyOp (db : DB) : DBOp → DB
  | DBOp.addUser u => add_user db u
  | DBOp.addSubscription u t f => (add_subscription db u t f).2
  | DBOp.deleteSubscription sid => (delete_subscription db sid).2
  | DBOp.updateLastChecked sid now => update_last_checked db sid now
  | DBOp.markSeen u sid aid => mark_paper_seen db u sid aid
  | DBOp.runPass source now force => (check_subscriptions source now force db []).1

/-- Effect of a sequence of operations, applied left to right. -/
def applyOps (db : DB) (ops : List DBOp) : DB :=
  ops.foldl applyOp db

/-! ### General list helpers -/

/-- If an element found at an index of `xs ++ ys` does not occur in `ys`,
its index lies inside `xs`. -/
theorem idx_lt_of_not_mem_right {α : Type} {xs ys : List α} {i : Nat}
    {a : α} (h : (xs ++ ys)[i]? = some a) (ha : a ∉ ys) : i < xs.length := by
  by_contra hge
  push_neg at hge
  rw [List.getElem?_append_right hge] at h
  exact ha (List.getElem?_mem h)

/-- If an element found at an index of `xs ++ ys` does not occur in `xs`,
its index lies inside `ys`. -/
theorem idx_ge_of_not_mem_left {α : Type} {xs ys : List α} {j : Nat}
    {a : α} (h : (xs ++ ys)[j]? = some a) (ha : a ∉ xs) : xs.length ≤ j := by
  by_contra hlt
  push_neg at hlt
  rw [List.getElem?_append_left hlt] at h
  exact ha (List.getElem?_mem h)

/-! ### Seen-paper ledger lemmas -/

/-- Marking a pair makes `is_paper_seen` report it. -/
theorem is_paper_seen_mark_self (db : DB) (u : Int) (s : Nat) (i : String) :
    is_paper_seen (mark_paper_seen db u s i) u i = true := by
  unfold mark_paper_seen is_paper_seen
  split
  · assumption
  · simp [List.any_append]

/-- Marking an already-seen pair is a no-op on the whole database. -/
theorem mark_paper_seen_of_seen (db : DB) (u : Int) (s : Nat) (i : String)
    (h : is_paper_seen db u i = true) : mark_paper_seen db u s i = db := by
  unfold is_paper_seen at h
  unfold mark_paper_seen
  rw [if_pos h]

/-- `is_paper_seen` facts survive any further `mark_paper_seen`. -/
theorem is_paper_seen_mark_mono (db : DB) (u2 : Int) (s2 : Nat)
    (i2 : String) (u : Int) (i : String)
    (h : is_paper_seen db u i = true) :
    is_paper_seen (mark_paper_seen db u2 s2 i2) u i = true := by
  unfold mark_paper_seen
  split
  · exact h
  · unfold is_paper_seen at h ⊢
    simp only [List.any_append, Bool.or_eq_true]
    exact Or.inl h

/-- `update_last_checked` does not touch seen_papers. -/
theorem is_paper_seen_update (db : DB) (sid : Nat) (now : DateTime)
    (u : Int) (i : String) :
    is_paper_seen (update_last_checked db sid now) u i =
      is_paper_seen db u i := rfl

/-- `is_paper_seen` facts survive a fold of `mark_paper_seen` calls. -/
theorem is_paper_seen_foldl_mark (l : List Article) (uu : Int) (ss : Nat)
    (u : Int) (i : String) :
    ∀ db : DB, is_paper_seen db u i = true →
      is_paper_seen
        (l.foldl (fun d a => mark_paper_seen d uu ss a.arxiv_id) db) u i =
        true := by
  induction l with
  | nil => intro db h; exact h
  | cons a t ih =>
      intro db h
      rw [List.foldl_cons]
      exact ih _ (is_paper_seen_mark_mono db uu ss a.arxiv_id u i h)

/-- `is_paper_seen` facts survive one subscription's processing. -/
theorem is_paper_seen_process (source : String → List Article)
    (now : DateTime) (force : Bool) (sub : SubRow) (db : DB)
    (storage : Storage) (u : Int) (i : String)
    (h : is_paper_seen db u i = true) :
    is_paper_seen
      (process_subscription source now force sub db storage).1 u i = true := by
  unfold process_subscription
  split
  · exact h
  · dsimp only
    split
    · rw [is_paper_seen_update]
      exact h
    · rw [is_paper_seen_update]
      exact is_paper_seen_foldl_mark _ _ _ _ _ db h

/-- `is_paper_seen` facts survive a whole scheduler pass. -/
theorem is_paper_seen_pass (source : String → List Article) (now : DateTime)
    (force : Bool) (db : DB) (storage : Storage) (u : Int) (i : String)
    (h : is_paper_seen db u i = true) :
    is_paper_seen (check_subscriptions source now force db storage).1 u i =
      true := by
  unfold check_subscriptions
  split
  · exact h
  · split
    · exact h
    · have main : ∀ (subs : List SubRow) (acc : DB × Storage × List Event),
          is_paper_seen acc.1 u i = true →
          is_paper_seen
            (subs.foldl (fun acc sub =>
              let step :=
                process_subscription source now force sub acc.1 acc.2.1
              (step.1, step.2.1, acc.2.2 ++ step.2.2)) acc).1 u i = true := by
        intro subs
        induction subs with
        | nil => intro acc hacc; exact hacc
        | cons s t ih =>
            intro acc hacc
            rw [List.foldl_cons]
            exact ih _ (is_paper_seen_process source now force s acc.1
              acc.2.1 u i hacc)
      exact main (get_all_subscriptions db) (db, storage, []) h

/-- `is_paper_seen` facts survive every database mutation the repository
performs. -/
theorem is_paper_seen_applyOp (db : DB) (op : DBOp) (u : Int) (i : String)
    (h : is_paper_seen db u i = true) :
    is_paper_seen (applyOp db op) u i = true := by
  cases op with
  | addUser u2 =>
      simp only [applyOp, add_user]
      split <;> exact h
  | addSubscription u2 t f => exact h
  | deleteSubscription sid => exact h
  | updateLastChecked sid now => exact h
  | markSeen u2 s2 i2 => exact is_paper_seen_mark_mono db u2 s2 i2 u i h
  | runPass source now force =>
      exact is_paper_seen_pass source now force db [] u i h

/-- `is_paper_seen` facts survive any sequence of database mutations. -/
theorem is_paper_seen_applyOps (ops : List DBOp) (u : Int) (i : String) :
    ∀ db : DB, is_paper_seen db u i = true →
      is_paper_seen (applyOps db ops) u i = true := by
  induction ops with
  | nil => intro db h; exact h
  | cons op t ih =>
      intro db h
      exact ih _ (is_paper_seen_applyOp db op u i h)

/-- A seen id is never in the `get_unseen_papers` answer. -/
theorem not_mem_unseen_of_seen (db : DB) (u : Int) (i : String)
    (ids : List String) (h : is_paper_seen db u i = true) :
    i ∉ get_unseen_papers db u ids := by
  unfold get_unseen_papers
  split
  · simp
  · intro hmem
    simp only [List.mem_filter, Bool.not_eq_true] at hmem
    obtain ⟨hid, hpred⟩ := hmem
    unfold is_paper_seen at h
    rw [List.any_eq_true] at h
    obtain ⟨r, hr, hru⟩ := h
    rw [Bool.and_eq_true, beq_iff_eq, beq_iff_eq] at hru
    have hin : (((db.seen_papers.filter (fun r =>
        r.user_id == u && ids.contains r.arxiv_id)).map
          (fun r => r.arxiv_id)).contains i) = true := by
      rw [List.elem_iff, List.mem_map]
      refine ⟨r, ?_, hru.2⟩
      rw [List.mem_filter, Bool.and_eq_true, beq_iff_eq]
      exact ⟨hr, hru.1, by rw [List.elem_iff, hru.2]; exact hid⟩
    rw [hin] at hpred
    cases hpred

/-- For an id drawn from the queried list, membership in the SELECT result of
`get_unseen_papers` coincides with `is_paper_seen`. -/
theorem seen_select_contains_eq (db : DB) (u : Int) (ids : List String)
    (i : String) (hi : i ∈ ids) :
    (((db.seen_papers.filter (fun r =>
        r.user_id == u && ids.contains r.arxiv_id)).map
      (fun r => r.arxiv_id)).contains i) = is_paper_seen db u i := by
  rw [Bool.eq_iff_iff]
  constructor
  · intro h
    rw [List.elem_iff, List.mem_map] at h
    obtain ⟨r, hr, hri⟩ := h
    rw [List.mem_filter, Bool.and_eq_true, beq_iff_eq] at hr
    unfold is_paper_seen
    rw [List.any_eq_true]
    refine ⟨r, hr.1, ?_⟩
    rw [Bool.and_eq_true, beq_iff_eq, beq_iff_eq]
    exact ⟨hr.2.1, hri⟩
  · intro h
    unfold is_paper_seen at h
    rw [List.any_eq_true] at h
    obtain ⟨r, hr, hru⟩ := h
    rw [Bool.and_eq_true, beq_iff_eq, beq_iff_eq] at hru
    rw [List.elem_iff, List.mem_map]
    refine ⟨r, ?_, hru.2⟩
    rw [List.mem_filter, Bool.and_eq_true, beq_iff_eq]
    refine ⟨hr, hru.1, ?_⟩
    rw [List.elem_iff, hru.2]
    exact hi

/-! ### Claim theorems -/

/-- C2 (confirmed): after `mark_paper_seen(U, S, I)` returns, every
subsequent `get_unseen_papers(U, ids)` omits `I` — for any interleaving of
further database operations (including whole scheduler passes driven by any
subscription) between the mark and the query, and any position of `I` in
`ids`. -/
theorem C2_markSeen_excludes_forever :
    ∀ (db : DB) (u : Int) (s : Nat) (i : String) (ops : List DBOp)
      (ids : List String),
      i ∉ get_unseen_papers (applyOps (mark_paper_seen db u s i) ops) u ids := by
  intro db u s i ops ids
  exact not_mem_unseen_of_seen _ _ _ _
    (is_paper_seen_applyOps ops u i _ (is_paper_seen_mark_self db u s i))

/-- C9 (confirmed): `get_unseen_papers` returns the subsequence of the input
ids consisting of exactly the ids with no seen-mark for the user, in input
order; the empty input yields the empty output with zero SQL round-trips. -/
theorem C9_filterUnseen_order_preserving_subsequence :
    ∀ (db : DB) (u : Int) (ids : List String),
      List.Sublist (get_unseen_papers db u ids) ids
      ∧ (∀ i : String, i ∈ get_unseen_papers db u ids ↔
          (i ∈ ids ∧ is_paper_seen db u i = false))
      ∧ get_unseen_papers db u [] = []
      ∧ get_unseen_papers_queries ([] : List String) = 0 := by
  intro db u ids
  refine ⟨?_, ?_, rfl, rfl⟩
  · unfold get_unseen_papers
    split
    · next hemp =>
        rw [List.isEmpty_iff] at hemp
        rw [hemp]
    · exact List.filter_sublist ids
  · intro i
    unfold get_unseen_papers
    split
    · next hemp =>
        rw [List.isEmpty_iff] at hemp
        rw [hemp]
        simp
    · next hemp =>
        dsimp only
        rw [List.mem_filter]
        constructor
        · rintro ⟨hid, hpred⟩
          refine ⟨hid, ?_⟩
          rw [seen_select_contains_eq db u ids i hid] at hpred
          rw [Bool.not_eq_eq_eq_not, Bool.not_true] at hpred
          exact hpred
        · rintro ⟨hid, hunseen⟩
          refine ⟨hid, ?_⟩
          rw [seen_select_contains_eq db u ids i hid, hunseen]
          rfl

/-- C6 (confirmed): `delete_subscription` reports whether a row with that id
existed, and never touches the seen_papers ledger (nor the users table): the
`ON DELETE CASCADE` clause in the schema is inert because the code never
enables `PRAGMA foreign_keys`, so deleting a subscription does not un-mark
its seen items. -/
theorem C6_deleteSubscription_no_cascade :
    ∀ (db : DB) (sid : Nat),
      ((delete_subscription db sid).1 = true ↔
        ∃ s ∈ db.subscriptions, s.id = sid)
      ∧ (delete_subscription db sid).2.seen_papers = db.seen_papers
      ∧ (delete_subscription db sid).2.users = db.users := by
  intro db sid
  refine ⟨?_, rfl, rfl⟩
  unfold delete_subscription
  dsimp only
  rw [List.any_eq_true]
  constructor
  · rintro ⟨s, hs, hid⟩
    rw [beq_iff_eq] at hid
    exact ⟨s, hs, hid⟩
  · rintro ⟨s, hs, hid⟩
    refine ⟨s, hs, ?_⟩
    rw [beq_iff_eq]
    exact hid

/-- C5 counterexample: for the registered user 1, creating a subscription
with an empty topic (directly, or through the message handler with a
whitespace-only text) does NOT fail and DOES create a subscription row — the
code performs no topic validation, refuting the claim that an empty topic is
rejected with InvalidInput and creates no row. -/
theorem C5_counterexample :
    (add_subscription (cmd_start init_db 1) 1 "" "daily").2.subscriptions ≠
      (cmd_start init_db 1).subscriptions
    ∧ (process_subscription_topic (cmd_start init_db 1) 1 "  ").2.subscriptions ≠
      (cmd_start init_db 1).subscriptions := by
  exact ⟨by decide, by decide⟩

/-- C5 (amended): `add_subscription` performs no validation of the topic:
called with an empty topic it succeeds synchronously, appends a subscription
row whose topic is the empty string, and returns its fresh id; the message
handler `process_subscription_topic` likewise turns whitespace-only input
into an empty-topic subscription. -/
theorem C5_empty_topic_accepted :
    ∀ (db : DB) (u : Int),
      (add_subscription db u "" "daily").2.subscriptions =
        db.subscriptions ++
          [{ id := db.next_sub_id, user_id := u, topic := "",
             frequency := "daily", last_checked := none }]
      ∧ (add_subscription db u "" "daily").1 = db.next_sub_id
      ∧ process_subscription_topic db u "  " =
          add_subscription db u "" "daily" := by
  intro db u
  refine ⟨rfl, rfl, ?_⟩
  unfold process_subscription_topic
  rw [show py_strip "  " = "" from rfl]

/-- An unseen pair has no seen_papers rows. -/
theorem seen_count_eq_zero (db : DB) (u : Int) (i : String)
    (h : is_paper_seen db u i = false) : seen_count db u i = 0 := by
  unfold seen_count
  rw [List.length_eq_zero, List.filter_eq_nil_iff]
  intro r hr hp
  unfold is_paper_seen at h
  rw [← Bool.not_eq_true, List.any_eq_true] at h
  exact h ⟨r, hr, hp⟩

/-- With the UNIQUE(user_id, arxiv_id) invariant, a pair has at most one
seen_papers row. -/
theorem seen_rows_length_le_one (l : List SeenRow) (u : Int) (i : String)
    (h : (l.map (fun r => (r.user_id, r.arxiv_id))).Nodup) :
    (l.filter (fun r => r.user_id == u && r.arxiv_id == i)).length ≤ 1 := by
  induction l with
  | nil => simp
  | cons r t ih =>
      rw [List.map_cons, List.nodup_cons] at h
      obtain ⟨hnot, ht⟩ := h
      by_cases hp : (r.user_id == u && r.arxiv_id == i) = true
      · rw [List.filter_cons, if_pos hp, List.length_cons]
        have hnil : t.filter
            (fun r2 => r2.user_id == u && r2.arxiv_id == i) = [] := by
          rw [List.filter_eq_nil_iff]
          intro r2 hr2 hp2
          apply hnot
          rw [List.mem_map]
          refine ⟨r2, hr2, ?_⟩
          rw [Bool.and_eq_true, beq_iff_eq, beq_iff_eq] at hp hp2
          rw [hp2.1, hp2.2, hp.1, hp.2]
        rw [hnil]
        simp
      · rw [List.filter_cons, if_neg hp]
        exact ih ht

/-- A seen pair has at least one seen_papers row. -/
theorem seen_count_pos (db : DB) (u : Int) (i : String)
    (h : is_paper_seen db u i = true) : 0 < seen_count db u i := by
  unfold is_paper_seen at h
  rw [List.any_eq_true] at h
  obtain ⟨r, hr, hp⟩ := h
  unfold seen_count
  apply List.length_pos_of_mem
  rw [List.mem_filter]
  exact ⟨hr, hp⟩

/-- Under the UNIQUE invariant, a seen pair has exactly one row. -/
theorem seen_count_eq_one (db : DB) (u : Int) (i : String)
    (hu : seen_unique db) (h : is_paper_seen db u i = true) :
    seen_count db u i = 1 :=
  Nat.le_antisymm (seen_rows_length_le_one db.seen_papers u i hu)
    (seen_count_pos db u i h)

/-- `mark_paper_seen` preserves the UNIQUE(user_id, arxiv_id) invariant. -/
theorem seen_unique_mark (db : DB) (u : Int) (s : Nat) (i : String)
    (h : seen_unique db) : seen_unique (mark_paper_seen db u s i) := by
  unfold mark_paper_seen
  split
  · exact h
  · next hc =>
      unfold seen_unique at h ⊢
      dsimp only
      rw [List.map_append, List.map_cons, List.map_nil, List.nodup_append]
      refine ⟨h, List.nodup_singleton _, ?_⟩
      intro x hx hx2
      rw [List.mem_singleton] at hx2
      rw [List.mem_map] at hx
      obtain ⟨r, hr, hrx⟩ := hx
      apply hc
      rw [List.any_eq_true]
      refine ⟨r, hr, ?_⟩
      rw [Bool.and_eq_true, beq_iff_eq, beq_iff_eq]
      rw [hx2] at hrx
      exact ⟨congrArg Prod.fst hrx, congrArg Prod.snd hrx⟩

/-- Marking a fresh pair leaves exactly one row for it. -/
theorem seen_count_mark_not_seen (db : DB) (u : Int) (s : Nat) (i : String)
    (h : is_paper_seen db u i = false) :
    seen_count (mark_paper_seen db u s i) u i = 1 := by
  have h0 := seen_count_eq_zero db u i h
  unfold is_paper_seen at h
  unfold mark_paper_seen
  rw [if_neg (by rw [h]; exact Bool.false_ne_true)]
  unfold seen_count at h0 ⊢
  dsimp only
  rw [List.filter_append, List.length_append, h0]
  simp

/-- C8 (confirmed): `mark_paper_seen` is idempotent — re-marking the same
(user, subscription, item) triple is a no-op on the whole database (and the
function is total, so it never raises), and afterwards exactly one
seen_papers row exists for the (user, item) pair; the UNIQUE invariant is
preserved. -/
theorem C8_markSeen_idempotent :
    ∀ (db : DB) (u : Int) (s : Nat) (i : String), seen_unique db →
      mark_paper_seen (mark_paper_seen db u s i) u s i =
        mark_paper_seen db u s i
      ∧ seen_count (mark_paper_seen (mark_paper_seen db u s i) u s i) u i = 1
      ∧ seen_unique (mark_paper_seen db u s i) := by
  intro db u s i hu
  have hidem : mark_paper_seen (mark_paper_seen db u s i) u s i =
      mark_paper_seen db u s i :=
    mark_paper_seen_of_seen _ u s i (is_paper_seen_mark_self db u s i)
  refine ⟨hidem, ?_, seen_unique_mark db u s i hu⟩
  rw [hidem]
  exact seen_count_eq_one _ u i (seen_unique_mark db u s i hu)
    (is_paper_seen_mark_self db u s i)

/-- A skipped subscription's processing is the identity on database, storage
and trace. -/
theorem process_subscription_skip (source : String → List Article)
    (now : DateTime) (force : Bool) (sub : SubRow) (db : DB)
    (storage : Storage) (h : sub_skipped force now sub.last_checked = true) :
    process_subscription source now force sub db storage = (db, storage, []) := by
  unfold process_subscription
  rw [if_pos h]

/-- Folding the pass body over subscriptions that are all skipped changes
nothing. -/
theorem pass_foldl_all_skipped (source : String → List Article)
    (now : DateTime) (force : Bool) (subs : List SubRow)
    (h : ∀ s ∈ subs, sub_skipped force now s.last_checked = true) :
    ∀ acc : DB × Storage × List Event,
      subs.foldl (fun acc sub =>
        let step := process_subscription source now force sub acc.1 acc.2.1
        (step.1, step.2.1, acc.2.2 ++ step.2.2)) acc = acc := by
  induction subs with
  | nil => intro acc; rfl
  | cons s t ih =>
      intro acc
      rw [List.foldl_cons]
      have hstep := process_subscription_skip source now force s acc.1
        acc.2.1 (h s (List.mem_cons_self s t))
      rw [hstep]
      simp only [List.append_nil]
      exact ih (fun s2 hs2 => h s2 (List.mem_cons_of_mem s hs2)) acc

/-- An eligible subscription's processing always begins with its fetch
event. -/
theorem process_subscription_eligible_trace (source : String → List Article)
    (now : DateTime) (force : Bool) (sub : SubRow) (db : DB)
    (storage : Storage) (h : sub_eligible force now sub.last_checked = true) :
    (process_subscription source now force sub db storage).2.2 ≠ [] := by
  unfold sub_eligible at h
  rw [Bool.not_eq_eq_eq_not, Bool.not_true] at h
  unfold process_subscription
  rw [if_neg (by rw [h]; exact Bool.false_ne_true)]
  dsimp only
  split
  · intro hcontra
    cases hcontra
  · intro hcontra
    cases hcontra

/-- C7 (confirmed): in a `force = false` pass, a subscription whose
`last_checked` has today's calendar date is skipped entirely (no fetch, no
message, no database write); if every subscription's `last_checked` has
today's date — the state a first pass that touched them all leaves behind —
the whole second pass is a no-op with an empty trace; a null `last_checked`
or `force = true` makes the subscription eligible, and an eligible
subscription really is processed (its trace is non-empty, starting with the
fetch). -/
theorem C7_same_day_throttle :
    ∀ (source : String → List Article) (now : DateTime) (db : DB)
      (storage : Storage) (sub : SubRow) (d : DateTime) (force : Bool),
      (sub.last_checked = some d → sameDate d now = true →
        process_subscription source now false sub db storage =
          (db, storage, []))
      ∧ ((∀ s ∈ db.subscriptions, ∃ e, s.last_checked = some e ∧
            sameDate e now = true) →
          check_subscriptions source now false db storage =
            (db, storage, []))
      ∧ sub_eligible false now none = true
      ∧ sub_eligible true now sub.last_checked = true
      ∧ (sub_eligible force now sub.last_checked = true →
          (process_subscription source now force sub db storage).2.2 ≠ []) := by
  intro source now db storage sub d force
  refine ⟨?_, ?_, rfl, rfl, ?_⟩
  · intro hlc hsame
    apply process_subscription_skip
    unfold sub_skipped
    rw [hlc]
    exact hsame
  · intro hall
    unfold check_subscriptions
    split
    · rfl
    · split
      · rfl
      · apply pass_foldl_all_skipped
        intro s hs
        obtain ⟨e, he, hsame⟩ := hall s hs
        unfold sub_skipped
        rw [he]
        exact hsame
  · exact process_subscription_eligible_trace source now force sub db storage

/-- The trace of one subscription's processing has one of three shapes:
empty (skipped), the nothing-new shape, or fetch + (enrich, markSeen) pairs
followed by the single batched dispatch and the last-checked update. -/
theorem process_subscription_trace_shape (source : String → List Article)
    (now : DateTime) (force : Bool) (sub : SubRow) (db : DB)
    (storage : Storage) :
    (process_subscription source now force sub db storage).2.2 = []
    ∨ (process_subscription source now force sub db storage).2.2 =
        [Event.fetch sub.topic, Event.dispatchNothingNew sub.user_id,
         Event.updateLastChecked sub.id]
    ∨ ∃ delivered : List Article,
        (process_subscription source now force sub db storage).2.2 =
          Event.fetch sub.topic ::
            (delivered.flatMap (fun a =>
              [Event.enrich a.arxiv_id,
               Event.markSeen sub.user_id sub.id a.arxiv_id]) ++
             [Event.dispatch sub.user_id
                (delivered.map (fun a => a.arxiv_id)),
              Event.updateLastChecked sub.id]) := by
  unfold process_subscription
  split
  · left
    rfl
  · dsimp only
    split
    · right
      left
      rfl
    · right
      right
      exact ⟨_, rfl⟩

/-- Concrete article for the ordering scenario. -/
def artA : Article :=
  { title := "T1", link := "http://arxiv.org/abs/1111.0001",
    abstract := "A", year := 2024, arxiv_id := "1111.0001" }

/-- Concrete source oracle: topic "t" has exactly the article `artA`. -/
def sourceA : String → List Article :=
  fun q => if q == "t" then [artA] else []

/-- A Monday at 10:00 (in the arXiv update window). -/
def now0 : DateTime :=
  { year := 2026, month := 10, day := 12, hour := 10, weekday := 0 }

/-- A never-checked subscription of user 10 on topic "t". -/
def subA : SubRow :=
  { id := 1, user_id := 10, topic := "t", frequency := "daily",
    last_checked := none }

/-- Database holding exactly user 10 and the subscription `subA`. -/
def dbA : DB :=
  { users := [10], subscriptions := [subA], seen_papers := [],
    next_sub_id := 2, next_seen_id := 1 }

/-- The trace of processing `subA` once against `sourceA`. -/
def traceA : List Event :=
  (process_subscription sourceA now0 false subA dbA []).2.2

/-- C1 counterexample: a concrete run refuting the claimed ordering.  One
subscription for user 10 on topic "t", never checked, with one fresh article
"1111.0001": the trace of its processing contains the `markSeen` write at
index 2 and the notification dispatch only later, at index 3 — so it is NOT
the case that every `markSeen` for a delivered item comes strictly after the
dispatch of that item. -/
theorem C1_counterexample :
    ¬ (∀ (i j : Nat) (u : Int) (s : Nat) (aid : String) (us : Int)
        (items : List String),
        traceA[i]? = some (Event.markSeen u s aid) →
        traceA[j]? = some (Event.dispatch us items) →
        aid ∈ items → j < i) := by
  intro h
  have h23 := h 2 3 10 1 "1111.0001" 10 ["1111.0001"] (by decide) (by decide)
    (by decide)
  omega

/-- C1 (amended): within one subscription's processing, every
`mark_paper_seen` write happens strictly BEFORE the notification dispatch:
the code creates the Telegraph page and marks each delivered item seen inside
the delivery loop, and only afterwards sends the single batched
notification.  (The claim's dispatch-then-mark order is the reverse of what
the code does.) -/
theorem C1_markSeen_precedes_dispatch :
    ∀ (source : String → List Article) (now : DateTime) (force : Bool)
      (sub : SubRow) (db : DB) (storage : Storage) (i j : Nat) (u : Int)
      (s : Nat) (aid : String) (us : Int) (items : List String),
      (process_subscription source now force sub db storage).2.2[i]? =
        some (Event.markSeen u s aid) →
      (process_subscription source now force sub db storage).2.2[j]? =
        some (Event.dispatch us items) →
      i < j := by
  intro source now force sub db storage i j u s aid us items hi hj
  rcases process_subscription_trace_shape source now force sub db storage
    with hsh | hsh | ⟨delivered, hsh⟩
  · rw [hsh] at hi
    cases hi
  · rw [hsh] at hj
    have := List.getElem?_mem hj
    simp at this
  · rw [hsh] at hi hj
    rw [show Event.fetch sub.topic ::
        (delivered.flatMap (fun a =>
          [Event.enrich a.arxiv_id,
           Event.markSeen sub.user_id sub.id a.arxiv_id]) ++
         [Event.dispatch sub.user_id (delivered.map (fun a => a.arxiv_id)),
          Event.updateLastChecked sub.id]) =
        (Event.fetch sub.topic ::
          delivered.flatMap (fun a =>
            [Event.enrich a.arxiv_id,
             Event.markSeen sub.user_id sub.id a.arxiv_id])) ++
         [Event.dispatch sub.user_id (delivered.map (fun a => a.arxiv_id)),
          Event.updateLastChecked sub.id] from rfl] at hi hj
    have hilt : i < (Event.fetch sub.topic ::
        delivered.flatMap (fun a =>
          [Event.enrich a.arxiv_id,
           Event.markSeen sub.user_id sub.id a.arxiv_id])).length := by
      refine idx_lt_of_not_mem_right hi ?_
      simp
    have hjge : (Event.fetch sub.topic ::
        delivered.flatMap (fun a =>
          [Event.enrich a.arxiv_id,
           Event.markSeen sub.user_id sub.id a.arxiv_id])).length ≤ j := by
      refine idx_ge_of_not_mem_left hj ?_
      simp [List.mem_flatMap]
    omega

/-- Candidate article 1 for the cap-3 scenario. -/
def qa1 : Article :=
  { title := "Q1", link := "http://arxiv.org/abs/q1", abstract := "A",
    year := 2026, arxiv_id := "q1" }

/-- Candidate article 2 for the cap-3 scenario. -/
def qa2 : Article :=
  { title := "Q2", link := "http://arxiv.org/abs/q2", abstract := "A",
    year := 2026, arxiv_id := "q2" }

/-- Candidate article 3 for the cap-3 scenario. -/
def qa3 : Article :=
  { title := "Q3", link := "http://arxiv.org/abs/q3", abstract := "A",
    year := 2026, arxiv_id := "q3" }

/-- Candidate article 4 for the cap-3 scenario. -/
def qa4 : Article :=
  { title := "Q4", link := "http://arxiv.org/abs/q4", abstract := "A",
    year := 2026, arxiv_id := "q4" }

/-- Candidate article 5 for the cap-3 scenario. -/
def qa5 : Article :=
  { title := "Q5", link := "http://arxiv.org/abs/q5", abstract := "A",
    year := 2026, arxiv_id := "q5" }

/-- Source oracle returning the 5 candidates, newest first, for the topic
"quantum computing". -/
def sourceQ : String → List Article :=
  fun q =>
    if q == "quantum computing" then [qa1, qa2, qa3, qa4, qa5] else []

/-- A never-checked subscription of user 7 on "quantum computing". -/
def subQ : SubRow :=
  { id := 1, user_id := 7, topic := "quantum computing",
    frequency := "daily", last_checked := none }

/-- Database holding exactly user 7 and the subscription `subQ`, with no
seen papers. -/
def dbQ : DB :=
  { users := [7], subscriptions := [subQ], seen_papers := [],
    next_sub_id := 2, next_seen_id := 1 }

/-- The full pass over `dbQ` at `now0` (in window, not forced). -/
def runQ : DB × Storage × List Event :=
  check_subscriptions sourceQ now0 false dbQ []

/-- C4 counterexample: in the claimed scenario (lastChecked null, 5 fresh
candidates, cap 3) the code does NOT dispatch three notifications — it sends
a single batched `bot.send_message` covering the three delivered items, so
the number of notification sends in the trace is 1, not 3. -/
theorem C4_counterexample : ¬ notificationCount runQ.2.2 = 3 := by decide

/-- C4 (amended): subscription with `lastChecked = null`, source returning 5
fresh candidates, delivery cap 3: the pass dispatches exactly ONE
notification — a single batched message carrying the 3 newest items in
source order — creates exactly 3 seen-marks for those items in source order,
updates the subscription's `last_checked` to now, and leaves the remaining
2 items unmarked.  (Versus the claim's "exactly 3 notifications": everything
else in the claim holds, but the three items travel in one message.) -/
theorem C4_cap3_single_batched_notification :
    notificationCount runQ.2.2 = 1
    ∧ runQ.2.2 =
        [Event.fetch "quantum computing",
         Event.enrich "q1", Event.markSeen 7 1 "q1",
         Event.enrich "q2", Event.markSeen 7 1 "q2",
         Event.enrich "q3", Event.markSeen 7 1 "q3",
         Event.dispatch 7 ["q1", "q2", "q3"],
         Event.updateLastChecked 1]
    ∧ runQ.1.seen_papers =
        [{ id := 1, user_id := 7, subscription_id := 1, arxiv_id := "q1" },
         { id := 2, user_id := 7, subscription_id := 1, arxiv_id := "q2" },
         { id := 3, user_id := 7, subscription_id := 1, arxiv_id := "q3" }]
    ∧ runQ.1.subscriptions = [{ subQ with last_checked := some now0 }]
    ∧ is_paper_seen runQ.1 7 "q4" = false
    ∧ is_paper_seen runQ.1 7 "q5" = false := by
  refine ⟨by decide, by decide, by decide, by decide, by decide, by decide⟩

/-! ### Global article-storage lemmas -/

/-- Removing the entries of a different key does not change a lookup. -/
theorem lookup_filter_ne (storage : Storage) (key k : String)
    (h : (k == key) = false) :
    (storage.filter (fun p => !(p.1 == key))).lookup k = storage.lookup k := by
  induction storage with
  | nil => rfl
  | cons p t ih =>
      cases p with
      | mk p1 p2 =>
          by_cases hp : (p1 == key) = true
          · rw [List.filter_cons, if_neg (by dsimp only; rw [hp]; decide)]
            have hkp : (k == p1) = false := by
              rw [beq_eq_false_iff_ne] at h ⊢
              rw [beq_iff_eq] at hp
              rw [hp]
              exact h
            rw [ih]
            simp [List.lookup, hkp]
          · rw [Bool.not_eq_true] at hp
            rw [List.filter_cons, if_pos (by dsimp only; rw [hp]; decide)]
            by_cases hkp : (k == p1) = true
            · simp [List.lookup, hkp]
            · rw [Bool.not_eq_true] at hkp
              simp [List.lookup, hkp, ih]

/-- Lookup after a dict assignment: the new key maps to the new value,
every other key is unchanged. -/
theorem lookup_store_insert (storage : Storage) (key : String)
    (art : Article) (k : String) :
    (store_insert storage key art).lookup k =
      if k == key then some art else storage.lookup k := by
  unfold store_insert
  by_cases hk : (k == key) = true
  · simp [List.lookup, hk]
  · rw [Bool.not_eq_true] at hk
    simp only [List.lookup, hk]
    rw [if_neg (by decide)]
    exact lookup_filter_ne storage key k hk

/-- Unfolding one step of `store_articles`. -/
theorem store_articles_cons (storage : Storage) (a : Article)
    (t : List Article) :
    store_articles storage (a :: t) =
      store_articles (store_insert storage a.arxiv_id a) t := rfl

/-- A present key stays present through a dict assignment. -/
theorem lookup_isSome_store_insert (storage : Storage) (key : String)
    (art : Article) (k : String)
    (h : (storage.lookup k).isSome = true) :
    ((store_insert storage key art).lookup k).isSome = true := by
  rw [lookup_store_insert]
  by_cases hk : (k == key) = true
  · rw [if_pos hk]
    rfl
  · rw [Bool.not_eq_true] at hk
    rw [if_neg (by rw [hk]; decide)]
    exact h

/-- A present key stays present through storing a whole batch. -/
theorem lookup_isSome_store_articles (batch : List Article) :
    ∀ (storage : Storage) (k : String),
      (storage.lookup k).isSome = true →
      ((store_articles storage batch).lookup k).isSome = true := by
  induction batch with
  | nil => intro storage k h; exact h
  | cons a t ih =>
      intro storage k h
      rw [store_articles_cons]
      exact ih _ k (lookup_isSome_store_insert storage a.arxiv_id a k h)

/-- A present key stays present through a page fetch. -/
theorem lookup_isSome_get_arxiv_articles (source : String → List Article)
    (storage : Storage) (query : String) (max_results offset : Nat)
    (k : String) (h : (storage.lookup k).isSome = true) :
    (((get_arxiv_articles source storage query max_results offset).2).lookup
      k).isSome = true := by
  unfold get_arxiv_articles
  exact lookup_isSome_store_articles _ storage k h

/-- A present key stays present in the storage component of
`display_search_results`. -/
theorem lookup_isSome_display (source : String → List Article)
    (st : BotState) (u : Int) (q : String) (off : Nat) (k : String)
    (h : ((st.articles_storage).lookup k).isSome = true) :
    (((display_search_results source st u q off).articles_storage).lookup
      k).isSome = true := by
  unfold display_search_results
  dsimp only
  split
  · exact lookup_isSome_get_arxiv_articles source st.articles_storage q 5 off
      k h
  · exact lookup_isSome_get_arxiv_articles source st.articles_storage q 5 off
      k h

/-- Membership in the key set survives a dict assignment. -/
theorem storageKeys_store_insert (storage : Storage) (key : String)
    (art : Article) (k : String) (h : k ∈ storageKeys storage) :
    k ∈ storageKeys (store_insert storage key art) := by
  unfold storageKeys store_insert
  rw [List.map_cons, List.mem_cons]
  by_cases hk : k = key
  · exact Or.inl hk
  · right
    rw [List.mem_map]
    unfold storageKeys at h
    rw [List.mem_map] at h
    obtain ⟨p, hp, hpk⟩ := h
    refine ⟨p, ?_, hpk⟩
    rw [List.mem_filter]
    refine ⟨hp, ?_⟩
    rw [Bool.not_eq_eq_eq_not, Bool.not_true, beq_eq_false_iff_ne]
    rw [hpk]
    exact hk

/-- Membership in the key set survives storing a whole batch. -/
theorem storageKeys_store_articles (batch : List Article) :
    ∀ (storage : Storage) (k : String), k ∈ storageKeys storage →
      k ∈ storageKeys (store_articles storage batch) := by
  induction batch with
  | nil => intro storage k h; exact h
  | cons a t ih =>
      intro storage k h
      rw [store_articles_cons]
      exact ih _ k (storageKeys_store_insert storage a.arxiv_id a k h)

/-- Every stored article's id is a key after storing the batch. -/
theorem storageKeys_store_articles_mem (batch : List Article) :
    ∀ (storage : Storage) (a : Article), a ∈ batch →
      a.arxiv_id ∈ storageKeys (store_articles storage batch) := by
  induction batch with
  | nil =>
      intro storage a h
      cases h
  | cons b t ih =>
      intro storage a h
      rw [store_articles_cons]
      rcases List.mem_cons.mp h with hab | hat
      · apply storageKeys_store_articles t
        rw [hab]
        unfold storageKeys store_insert
        rw [List.map_cons, List.mem_cons]
        exact Or.inl rfl
      · exact ih _ a hat

/-- Key-set monotonicity through one subscription's processing. -/
theorem storageKeys_process_subscription (source : String → List Article)
    (now : DateTime) (force : Bool) (sub : SubRow) (db : DB)
    (storage : Storage) (k : String) (h : k ∈ storageKeys storage) :
    k ∈ storageKeys
      (process_subscription source now force sub db storage).2.1 := by
  unfold process_subscription
  split
  · exact h
  · dsimp only
    split
    · exact storageKeys_store_articles _ storage k h
    · exact storageKeys_store_articles _ storage k h

/-- Key-set monotonicity through a whole scheduler pass. -/
theorem storageKeys_check_subscriptions (source : String → List Article)
    (now : DateTime) (force : Bool) (db : DB) (storage : Storage)
    (k : String) (h : k ∈ storageKeys storage) :
    k ∈ storageKeys
      (check_subscriptions source now force db storage).2.1 := by
  unfold check_subscriptions
  split
  · exact h
  · split
    · exact h
    · have main : ∀ (subs : List SubRow) (acc : DB × Storage × List Event),
          k ∈ storageKeys acc.2.1 →
          k ∈ storageKeys
            ((subs.foldl (fun acc sub =>
              let step :=
                process_subscription source now force sub acc.1 acc.2.1
              (step.1, step.2.1, acc.2.2 ++ step.2.2)) acc)).2.1 := by
        intro subs
        induction subs with
        | nil => intro acc hacc; exact hacc
        | cons s t ih =>
            intro acc hacc
            rw [List.foldl_cons]
            exact ih _ (storageKeys_process_subscription source now force s
              acc.1 acc.2.1 k hacc)
      exact main (get_all_subscriptions db) (db, storage, []) h

/-- Article returned by the second ("beta") search of the stale-handle
scenario. -/
def artB : Article :=
  { title := "T2", link := "http://arxiv.org/abs/2222.0002",
    abstract := "B", year := 2025, arxiv_id := "2222.0002" }

/-- Source oracle with two topics: "alpha" yields `artA`, "beta" yields
`artB`. -/
def sourceAB : String → List Article :=
  fun q =>
    if q == "alpha" then [artA]
    else if q == "beta" then [artB]
    else []

/-- Bot state after user 1 searches "alpha" and then searches "beta": the
session now belongs to the "beta" page, but the "alpha" page's article is
still in the global storage. -/
def stAB : BotState :=
  handle_text sourceAB
    (handle_text sourceAB
      { user_search_state := [], articles_storage := [] } 1 "alpha")
    1 "beta"

/-- C3 counterexample: clicking the handle "1111.0001" from the superseded
"alpha" page after the session has been replaced by the "beta" search does
NOT fail with the not-found answer — it succeeds and enriches the article,
because the handler looks the id up in the global grow-only
`articles_storage`, not in the current session. -/
theorem C3_counterexample :
    handle_article_click (fun _ => none) stAB "1111.0001" =
      ClickResult.enriched artA "http://arxiv.org/abs/1111.0001"
    ∧ ¬ handle_article_click (fun _ => none) stAB "1111.0001" =
        ClickResult.notFound := by
  exact ⟨by decide, by decide⟩

/-- C3 (amended): a handle whose article is present in the global
`articles_storage` keeps resolving after ANY further search replaces the
session: `handle_article_click` still succeeds with an enriched result.  The
not-found answer occurs only for ids never stored by any fetch (the code has
no per-session handle map to invalidate). -/
theorem C3_stale_handle_still_resolves :
    ∀ (source : String → List Article) (enrich : Article → Option String)
      (st : BotState) (u : Int) (q : String) (off : Nat) (aid : String),
      ((st.articles_storage).lookup aid).isSome = true →
      ∃ art : Article,
        handle_article_click enrich
          (display_search_results source st u q off) aid =
          ClickResult.enriched art (create_telegraph_page enrich art) := by
  intro source enrich st u q off aid h
  have h2 := lookup_isSome_display source st u q off aid h
  unfold handle_article_click
  cases hl : ((display_search_results source st u q off).articles_storage).lookup
      aid with
  | none =>
      rw [hl] at h2
      cases h2
  | some art =>
      exact ⟨art, rfl⟩

/-- C10 (confirmed): the handle→item store behind item selection is the one
process-global `articles_storage` map keyed by arxiv id, shared by all
users, and it only grows: searches, navigations and scheduler fetches add
their displayed items and nothing removes entries; `handle_article_click`
consults only this global map, so it is oblivious to the per-user session
state and succeeds for any id stored by any earlier fetch by any user. -/
theorem C10_global_grow_only_storage :
    (∀ (source : String → List Article) (st : BotState) (u : Int)
      (q : String) (off : Nat) (k : String),
      k ∈ storageKeys st.articles_storage →
      k ∈ storageKeys (display_search_results source st u q off).articles_storage)
    ∧ (∀ (source : String → List Article) (st : BotState) (u : Int)
        (off : Nat) (k : String),
        k ∈ storageKeys st.articles_storage →
        k ∈ storageKeys (handle_navigation source st u off).articles_storage)
    ∧ (∀ (source : String → List Article) (storage : Storage) (q : String)
        (m off : Nat) (a : Article),
        a ∈ (get_arxiv_articles source storage q m off).1.1 →
        a.arxiv_id ∈ storageKeys (get_arxiv_articles source storage q m off).2)
    ∧ (∀ (source : String → List Article) (now : DateTime) (force : Bool)
        (db : DB) (storage : Storage) (k : String),
        k ∈ storageKeys storage →
        k ∈ storageKeys (check_subscriptions source now force db storage).2.1)
    ∧ (∀ (enrich : Article → Option String) (sess1 sess2 : Sessions)
        (storage : Storage) (aid : String),
        handle_article_click enrich
          { user_search_state := sess1, articles_storage := storage } aid =
        handle_article_click enrich
          { user_search_state := sess2, articles_storage := storage } aid)
    ∧ (∀ (enrich : Article → Option String) (sess : Sessions)
        (storage : Storage) (aid : String) (art : Article),
        storage.lookup aid = some art →
        handle_article_click enrich
          { user_search_state := sess, articles_storage := storage } aid =
          ClickResult.enriched art (create_telegraph_page enrich art)) := by
  refine ⟨?_, ?_, ?_, storageKeys_check_subscriptions, ?_, ?_⟩
  · intro source st u q off k h
    unfold display_search_results
    dsimp only
    split
    · exact storageKeys_store_articles _ st.articles_storage k h
    · exact storageKeys_store_articles _ st.articles_storage k h
  · intro source st u off k h
    unfold handle_navigation
    cases st.user_search_state.lookup u with
    | none => exact h
    | some sess =>
        unfold display_search_results
        dsimp only
        split
        · exact storageKeys_store_articles _ st.articles_storage k h
        · exact storageKeys_store_articles _ st.articles_storage k h
  · intro source storage q m off a h
    unfold get_arxiv_articles at h ⊢
    exact storageKeys_store_articles_mem _ storage a h
  · intro enrich sess1 sess2 storage aid
    rfl
  · intro enrich sess storage aid art h
    unfold handle_article_click
    dsimp only
    rw [h]

/-! ### Witnesses: each hypothesis-bearing claim theorem applied at a
concrete input -/

/-- Witness for C1: the concrete one-article run has its markSeen at index
2 and its dispatch at index 3, and the amended theorem yields 2 < 3 there. -/
theorem C1_witness :
    traceA[2]? = some (Event.markSeen 10 1 "1111.0001")
    ∧ traceA[3]? = some (Event.dispatch 10 ["1111.0001"])
    ∧ 2 < 3 :=
  ⟨by decide, by decide,
   C1_markSeen_precedes_dispatch sourceA now0 false subA dbA [] 2 3 10 1
     "1111.0001" 10 ["1111.0001"] (by decide) (by decide)⟩

/-- Witness for C2: after marking "x" for user 1, a query listing "x" omits
it (empty interleaved operations). -/
theorem C2_witness :
    "x" ∉ get_unseen_papers
      (applyOps (mark_paper_seen init_db 1 1 "x") []) 1 ["x"] :=
  C2_markSeen_excludes_forever init_db 1 1 "x" [] ["x"]

/-- Witness for C3: the stale "alpha" handle still resolves after one more
"beta" search on top of `stAB`. -/
theorem C3_witness :
    (stAB.articles_storage.lookup "1111.0001").isSome = true
    ∧ ∃ art : Article,
        handle_article_click (fun _ => none)
          (display_search_results sourceAB stAB 1 "beta" 0) "1111.0001" =
          ClickResult.enriched art
            (create_telegraph_page (fun _ => none) art) :=
  ⟨by decide,
   C3_stale_handle_still_resolves sourceAB (fun _ => none) stAB 1 "beta" 0
     "1111.0001" (by decide)⟩

/-- Witness for C5: the empty-topic insert at the fresh database returns the
first AUTOINCREMENT id. -/
theorem C5_witness :
    (add_subscription init_db 1 "" "daily").1 = init_db.next_sub_id :=
  (C5_empty_topic_accepted init_db 1).2.1

/-- Witness for C6: deleting an absent id from the fresh database leaves
seen_papers untouched. -/
theorem C6_witness :
    (delete_subscription init_db 3).2.seen_papers = init_db.seen_papers :=
  (C6_deleteSubscription_no_cascade init_db 3).2.1

/-- A subscription already checked at `now0` (same calendar date). -/
def subSeen : SubRow :=
  { id := 2, user_id := 10, topic := "t", frequency := "daily",
    last_checked := some now0 }

/-- Database whose single subscription was already checked today. -/
def dbSeen : DB :=
  { users := [10], subscriptions := [subSeen], seen_papers := [],
    next_sub_id := 3, next_seen_id := 1 }

/-- Witness for C7: the already-checked-today subscription is skipped, the
whole second pass is a no-op, null/force eligibility holds, and a forced
processing emits events. -/
theorem C7_witness :
    process_subscription sourceA now0 false subSeen dbSeen [] =
      (dbSeen, [], [])
    ∧ check_subscriptions sourceA now0 false dbSeen [] = (dbSeen, [], [])
    ∧ sub_eligible false now0 none = true
    ∧ sub_eligible true now0 subSeen.last_checked = true
    ∧ (process_subscription sourceA now0 true subSeen dbSeen []).2.2 ≠ [] :=
  ⟨(C7_same_day_throttle sourceA now0 dbSeen [] subSeen now0 true).1 rfl
     (by decide),
   (C7_same_day_throttle sourceA now0 dbSeen [] subSeen now0 true).2.1
     (by
       intro s hs
       have hs2 : s = subSeen := by simpa [dbSeen] using hs
       exact ⟨now0, by rw [hs2]; decide, by decide⟩),
   (C7_same_day_throttle sourceA now0 dbSeen [] subSeen now0 true).2.2.1,
   (C7_same_day_throttle sourceA now0 dbSeen [] subSeen now0 true).2.2.2.1,
   (C7_same_day_throttle sourceA now0 dbSeen [] subSeen now0 true).2.2.2.2
     (by decide)⟩

/-- Witness for C8: double-marking "x" for user 1 in the fresh (hence
UNIQUE-satisfying) database is a no-op leaving exactly one row. -/
theorem C8_witness :
    mark_paper_seen (mark_paper_seen init_db 1 1 "x") 1 1 "x" =
      mark_paper_seen init_db 1 1 "x"
    ∧ seen_count
        (mark_paper_seen (mark_paper_seen init_db 1 1 "x") 1 1 "x") 1 "x" = 1
    ∧ seen_unique (mark_paper_seen init_db 1 1 "x") :=
  C8_markSeen_idempotent init_db 1 1 "x" (by decide)

/-- Witness for C9: the components of the filter-unseen contract evaluated
at a concrete database and query. -/
theorem C9_witness :
    get_unseen_papers init_db 1 [] = []
    ∧ List.Sublist (get_unseen_papers init_db 1 ["x"]) ["x"] :=
  ⟨(C9_filterUnseen_order_preserving_subsequence init_db 1 ["x"]).2.2.1,
   (C9_filterUnseen_order_preserving_subsequence init_db 1 ["x"]).1⟩

/-- Witness for C10: the stored "alpha" article's key survives a further
search and a forced scheduler pass, and the click handler succeeds on it
with an empty session. -/
theorem C10_witness :
    "1111.0001" ∈ storageKeys
      (display_search_results sourceAB stAB 1 "beta" 0).articles_storage
    ∧ "1111.0001" ∈ storageKeys
        (check_subscriptions sourceA now0 true dbA
          stAB.articles_storage).2.1
    ∧ handle_article_click (fun _ => none)
        { user_search_state := [],
          articles_storage := stAB.articles_storage } "1111.0001" =
        ClickResult.enriched artA
          (create_telegraph_page (fun _ => none) artA) :=
  ⟨C10_global_grow_only_storage.1 sourceAB stAB 1 "beta" 0 "1111.0001"
     (by decide),
   C10_global_grow_only_storage.2.2.2.1 sourceA now0 true dbA
     stAB.articles_storage "1111.0001" (by decide),
   C10_global_grow_only_storage.2.2.2.2.2 (fun _ => none) []
     stAB.articles_storage "1111.0001" artA (by decide)⟩
